import Mathlib

/-!
Shallow embedding of the LLMOps-Platform/server-runtime orchestrator.

The Python sources (`agent.py`, `server_runtime.py`, `server_type.py`,
`webapp_server.py`, `inference_server.py`) are translated into pure Lean
functions.  Interactions with the outside world (HTTP calls to the
repository and registry services, `subprocess.Popen`, the filesystem) are
modelled by passing the *outcome* of each external interaction in as an
explicit argument and by recording the side effects a code path performs
as an explicit event trace / state transformation.
-/

namespace Spec2Proof

/-- A JSON-ish scalar value, as manipulated by the Python front end
(`request.get_json()` fields are strings or ints here; an absent key is
modelled by `Option.none` at use sites, mirroring `dict.get`). -/
inductive JVal where
  | s (v : String)
  | i (n : Int)
  deriving DecidableEq, Repr

/-- Python truthiness of an optional JSON field, as used by
`if not all([name, version, port, workers])` in `agent.py`:
`None` (absent key), the empty string and the integer `0` are falsy. -/
def truthy : Option JVal → Bool
  | none => false
  | some (.s v) => v != ""
  | some (.i n) => n != 0

/-- Outcome of the repository fetch
(`requests.get(f"{REPOSITORY_URL}/get_version_files/...")` wrapped in
`try/except requests.RequestException` in `agent.py`). -/
inductive FetchResult where
  | ok
  | exn
  deriving DecidableEq, Repr

/-- Outcome of the registration `POST` to the registry service
(`requests.post(.../register_application, ...)` in `agent.py`):
HTTP 200, a non-200 response, or a raised `requests.RequestException`. -/
inductive RegResult where
  | ok200
  | non200
  | exn
  deriving DecidableEq, Repr

/-- Observable actions performed by the `agent.py` orchestration
functions: a role server `start()` call returning a pid (`-1` encodes the
internal failure return), the registration POST being attempted, and
`stop_service(pid)` (which runs `kill <pid>`). -/
inductive AgentEvent where
  | startCalled (pid : Int)
  | registerPosted
  | stopService (pid : Int)
  deriving DecidableEq, Repr

/-- `agent.py` `stop_service(pid)`: runs `kill <pid>`; a
`CalledProcessError` (pid not found) is logged, not raised. -/
def stop_service (pid : Int) : List AgentEvent :=
  [.stopService pid]

/-- `agent.py` `run_inference_server`: fetch bundle locations (early
return on `RequestException`), stage files, `InferenceAPIServer.start()`
(early return when it yields `-1`), then register; on a non-200 response
or a `RequestException` the just-spawned pid is passed to
`stop_service`.  The function always returns `None`; its observable
behaviour is the event trace. -/
def run_inference_server (fetch : FetchResult) (spawnPid : Int)
    (reg : RegResult) : List AgentEvent :=
  match fetch with
  | .exn => []
  | .ok =>
    let pid := spawnPid
    if pid = -1 then
      [.startCalled pid]
    else
      [.startCalled pid, .registerPosted] ++
        (match reg with
         | .ok200 => []
         | .non200 => stop_service pid
         | .exn => stop_service pid)

/-- `agent.py` `run_webapp_server`: same shape as
`run_inference_server`, except the pid returned by
`WebAppServer.start()` is not checked against `-1` before registration
is attempted; failure of the registration call again leads to
`stop_service(pid)`. -/
def run_webapp_server (fetch : FetchResult) (spawnPid : Int)
    (reg : RegResult) : List AgentEvent :=
  match fetch with
  | .exn => []
  | .ok =>
    let pid := spawnPid
    [.startCalled pid, .registerPosted] ++
      (match reg with
       | .ok200 => []
       | .non200 => stop_service pid
       | .exn => stop_service pid)

/-- An HTTP response of the thin Flask front end: status code and the
message carried in the JSON body. -/
structure ApiResponse where
  status : Nat
  body : String
  deriving DecidableEq, Repr

/-- `agent.py` `api_run_inference_server` (route
`POST /run_inference_server`): reads the four parameters with
`data.get`, rejects with 400 "Missing required parameters" when
`not all([name, version, port, workers])` (Python truthiness), otherwise
calls `run_inference_server` and unconditionally answers
200 "Inference server started successfully" (no outcome of the core
call reaches the handler: `run_inference_server` returns `None` on every
path, so the 500 branch of the handler is not reachable for the
modelled failures). -/
def api_run_inference_server (name version port workers : Option JVal)
    (fetch : FetchResult) (spawnPid : Int) (reg : RegResult) :
    ApiResponse × List AgentEvent :=
  if truthy name && truthy version && truthy port && truthy workers then
    (⟨200, "Inference server started successfully"⟩,
      run_inference_server fetch spawnPid reg)
  else
    (⟨400, "Missing required parameters"⟩, [])

/-- `agent.py` `api_run_webapp_server` (route `POST /run_webapp_server`):
three required parameters, validated with the same
`not all([...])` truthiness test, then `run_webapp_server` and an
unconditional 200 "WebApp server started successfully". -/
def api_run_webapp_server (name version port : Option JVal)
    (fetch : FetchResult) (spawnPid : Int) (reg : RegResult) :
    ApiResponse × List AgentEvent :=
  if truthy name && truthy version && truthy port then
    (⟨200, "WebApp server started successfully"⟩,
      run_webapp_server fetch spawnPid reg)
  else
    (⟨400, "Missing required parameters"⟩, [])

/-- `agent.py` line 49 / line 104:
`data = {name: name, version: version, pid: pid, port: port}` — a Python
dict literal whose *keys are the run-time values* of the variables
`name`, `version`, `pid`, `port` (not the string literals `"name"`
etc.), which is what is then serialised and sent to the registry. -/
def registrationData (name version : String) (pid port : Int) :
    List (JVal × JVal) :=
  [(.s name, .s name), (.s version, .s version),
   (.i pid, .i pid), (.i port, .i port)]

/-- C1: Rollback invariant — in both `run_inference_server` and
`run_webapp_server`, whenever the spawn succeeded (the returned pid is
not the failure value `-1`) and the subsequent registration call fails
(non-200 response or transport exception), `stop_service` is invoked on
that just-spawned pid before the function returns. -/
theorem rollback_on_failed_registration (pid : Int) (reg : RegResult)
    (hpid : pid ≠ -1) (hreg : reg ≠ .ok200) :
    AgentEvent.stopService pid ∈ run_inference_server .ok pid reg ∧
    AgentEvent.stopService pid ∈ run_webapp_server .ok pid reg := by
  cases reg with
  | ok200 => exact absurd rfl hreg
  | non200 => simp [run_inference_server, run_webapp_server, stop_service, hpid]
  | exn => simp [run_inference_server, run_webapp_server, stop_service, hpid]

/-- Witness for C1 at pid 57 with a non-200 registration response. -/
theorem rollback_on_failed_registration_witness :
    (57 : Int) ≠ -1 ∧ RegResult.non200 ≠ RegResult.ok200 ∧
    AgentEvent.stopService 57 ∈ run_inference_server .ok 57 .non200 := by
  refine ⟨by decide, by decide, ?_⟩
  exact (rollback_on_failed_registration 57 .non200 (by decide) (by decide)).1

/-- C5 (code evaluated at the failing inputs): with valid request
parameters, the front end answers HTTP 200
"Inference server started successfully" even when (a) the repository
fetch raised a transport exception, (b) the spawn failed
(`start()` returned `-1`), or (c) registration failed with a non-200
response — `run_inference_server` logs these failures and returns
`None`, so no error ever reaches the handler. -/
theorem api_reports_success_on_component_failure :
    (api_run_inference_server (some (.s "ocr")) (some (.s "0.1.0"))
        (some (.i 8000)) (some (.i 2)) .exn 0 .ok200).1 =
      ⟨200, "Inference server started successfully"⟩ ∧
    (api_run_inference_server (some (.s "ocr")) (some (.s "0.1.0"))
        (some (.i 8000)) (some (.i 2)) .ok (-1) .ok200).1 =
      ⟨200, "Inference server started successfully"⟩ ∧
    (api_run_inference_server (some (.s "ocr")) (some (.s "0.1.0"))
        (some (.i 8000)) (some (.i 2)) .ok 57 .non200).1 =
      ⟨200, "Inference server started successfully"⟩ := by
  decide

/-- C6 (code evaluated at the failing input): the dict literal
`{name: name, version: version, pid: pid, port: port}` built for the
registration request uses the run-time *values* as keys, so for
name "ocr", version "0.1.0", pid 123, port 8000 the payload's keys are
"ocr", "0.1.0", 123 and 8000 — the literal field name "name" (and
likewise "version", "pid", "port") does not occur among the keys. -/
theorem registration_payload_keys_are_values :
    (registrationData "ocr" "0.1.0" 123 8000).map Prod.fst =
      [.s "ocr", .s "0.1.0", .i 123, .i 8000] ∧
    JVal.s "name" ∉ (registrationData "ocr" "0.1.0" 123 8000).map Prod.fst ∧
    JVal.s "version" ∉ (registrationData "ocr" "0.1.0" 123 8000).map Prod.fst ∧
    JVal.s "pid" ∉ (registrationData "ocr" "0.1.0" 123 8000).map Prod.fst ∧
    JVal.s "port" ∉ (registrationData "ocr" "0.1.0" 123 8000).map Prod.fst := by
  decide

/-- C10: both front-end routes validate required parameters by Python
truthiness — a parameter that is present but falsy (empty-string name or
version, port 0, workers 0) is rejected with status 400 and body
"Missing required parameters", and the core start operation is never
invoked (the returned event trace is empty). -/
theorem present_but_falsy_params_rejected
    (name version port workers : Option JVal)
    (fetch : FetchResult) (spawnPid : Int) (reg : RegResult)
    (h : name = some (.s "") ∨ version = some (.s "") ∨
         port = some (.i 0) ∨ workers = some (.i 0)) :
    (workers = some (.i 0) ∨
      api_run_webapp_server name version port fetch spawnPid reg =
        (⟨400, "Missing required parameters"⟩, [])) ∧
    api_run_inference_server name version port workers fetch spawnPid reg =
      (⟨400, "Missing required parameters"⟩, []) := by
  rcases h with h | h | h | h <;> subst h <;>
    simp [api_run_inference_server, api_run_webapp_server, truthy]

/-- Witness for C10: a request with port present but 0 is rejected by
both routes with 400 "Missing required parameters" and an empty trace. -/
theorem present_but_falsy_params_rejected_witness :
    api_run_webapp_server (some (.s "ocr")) (some (.s "0.1.0"))
        (some (.i 0)) .ok 57 .ok200 =
      (⟨400, "Missing required parameters"⟩, []) ∧
    api_run_inference_server (some (.s "ocr")) (some (.s "0.1.0"))
        (some (.i 0)) (some (.i 2)) .ok 57 .ok200 =
      (⟨400, "Missing required parameters"⟩, []) := by
  have h := present_but_falsy_params_rejected (some (.s "ocr"))
    (some (.s "0.1.0")) (some (.i 0)) (some (.i 2)) .ok 57 .ok200
    (Or.inr (Or.inr (Or.inl rfl)))
  exact ⟨h.1.resolve_left (by decide), h.2⟩

/-- The parsed JSON configuration dict (`json.load` result), the shape
`ServerType._load_config` returns: a flat key/value mapping. -/
abbrev Config := List (String × JVal)

/-- What happened when `_load_config` executed
`open(self.config_path); json.load(...)`: either a dict was parsed, or
some exception was raised (file missing, unreadable, malformed JSON). -/
inductive LoadOutcome where
  | parsed (cfg : Config)
  | raised
  deriving DecidableEq, Repr

/-- `ServerType._load_config` (identical in `server_type.py` lines 28-35
and `server_runtime.py` lines 37-44): returns the parsed dict on
success; on *any* exception it logs the error and returns the empty
dict `\x7b\x7d`. -/
def loadConfig : LoadOutcome → Config
  | .parsed cfg => cfg
  | .raised => []

/-- Stated from the spec's words (for comparison with `loadConfig`):
"Fails with `ConfigError` if the file is missing, unreadable, or
malformed" — i.e. the outcome of a failed load is a distinguishable
error, never equal to a value a successful load could return. -/
def specConfigErrorDetectable : Prop :=
  ∀ cfg : Config, loadConfig .raised ≠ loadConfig (.parsed cfg)

/-- C3 counterexample: the claimed distinguishable-error property is
false — the result of a failed load is exactly the result of
successfully loading a file containing the empty JSON object, so the
caller cannot detect the failure from the returned value. -/
theorem load_config_failure_undetectable : ¬ specConfigErrorDetectable :=
  fun h => h [] rfl

/-- C3 amended: `_load_config` never produces an error outcome — on any
load failure it logs and returns the empty dict, a silently usable
default indistinguishable from a successfully loaded empty
configuration; the empty dict is returned exactly when the load raised
or the file held the empty JSON object. -/
theorem load_config_defaults_to_empty :
    loadConfig .raised = ([] : Config) ∧
    loadConfig .raised = loadConfig (.parsed []) ∧
    ∀ o : LoadOutcome, loadConfig o = [] ↔ (o = .raised ∨ o = .parsed []) := by
  refine ⟨rfl, rfl, fun o => ?_⟩
  cases o with
  | parsed cfg => simp [loadConfig]
  | raised => simp [loadConfig]

/-! ### `server_runtime.py`: process lifecycle (`stop` / `status`) -/

/-- The slice of system state the lifecycle code touches: the files it
has written (path ↦ content) and which pids currently belong to live
processes it spawned. -/
structure SysState where
  files : List (String × String)
  procs : List Int
  deriving DecidableEq, Repr

/-- `open(path, "w").write(content)`: overwrite-or-create a file. -/
def setFile (fs : List (String × String)) (k v : String) :
    List (String × String) :=
  (k, v) :: fs.filter (fun e => e.1 != k)

namespace ServerRuntime

/-- `server_runtime.py` `WebAppServer.start`, flask branch (lines
115-134): `subprocess.Popen(["gunicorn", ...])` spawns a process whose
OS-assigned pid is `pid`, then the pid is persisted to the
`web_server.pid` marker under the app directory
("Write PID to file for later management"); the method returns `True`. -/
def webAppStartFlask (appDir : String) (pid : Int) (s : SysState) :
    SysState × Bool :=
  ({ files := setFile s.files (appDir ++ "/web_server.pid") (toString pid),
     procs := pid :: s.procs }, true)

/-- `server_runtime.py` `ServerType.stop` (lines 85-88, not overridden
by any subclass): logs "Stopping <server_name>" and does nothing else —
it neither reads the pid marker nor signals any process. -/
def ServerType.stop (serverName : String) (s : SysState) :
    SysState × String :=
  (s, "Stopping " ++ serverName)

/-- `server_runtime.py` `ServerType.status` (lines 90-93, not
overridden by any subclass): logs "Checking status of <server_name>"
and reports nothing about process liveness. -/
def ServerType.status (serverName : String) (s : SysState) :
    SysState × String :=
  (s, "Checking status of " ++ serverName)

end ServerRuntime

/-- C2 (code evaluated at the failing input): after a start in app
directory "ocr_0.1.0" spawns pid 123 and persists it to the marker,
`stop` leaves the system state completely unchanged — the marker still
holds "123" and pid 123 is still a live process — and `status` after
`stop` only emits its log line, carrying no liveness information; a
second `stop` is again the identity.  So `stop` never recovers the
marker pid, never signals it, and stop-then-status cannot report "not
running". -/
theorem stop_is_noop_after_start :
    (ServerRuntime.webAppStartFlask "ocr_0.1.0" 123 ⟨[], []⟩).1 =
      ⟨[("ocr_0.1.0/web_server.pid", "123")], [123]⟩ ∧
    (ServerRuntime.ServerType.stop "WebAppServer"
        (ServerRuntime.webAppStartFlask "ocr_0.1.0" 123 ⟨[], []⟩).1).1 =
      (ServerRuntime.webAppStartFlask "ocr_0.1.0" 123 ⟨[], []⟩).1 ∧
    (123 : Int) ∈ (ServerRuntime.ServerType.stop "WebAppServer"
        (ServerRuntime.webAppStartFlask "ocr_0.1.0" 123 ⟨[], []⟩).1).1.procs ∧
    (ServerRuntime.ServerType.status "WebAppServer"
        (ServerRuntime.ServerType.stop "WebAppServer"
          (ServerRuntime.webAppStartFlask "ocr_0.1.0" 123 ⟨[], []⟩).1).1).2 =
      "Checking status of WebAppServer" ∧
    (ServerRuntime.ServerType.stop "WebAppServer"
        (ServerRuntime.ServerType.stop "WebAppServer"
          (ServerRuntime.webAppStartFlask "ocr_0.1.0" 123 ⟨[], []⟩).1).1).1 =
      (ServerRuntime.webAppStartFlask "ocr_0.1.0" 123 ⟨[], []⟩).1 := by
  refine ⟨?_, rfl, ?_, rfl, rfl⟩ <;> decide

/-! ### `server_runtime.py` `LoadBalancerServer._generate_nginx_config` -/

/-- `LoadBalancerServer._generate_nginx_config` (lines 281-309): one
`upstream backend` block with one `server <backend>;` line per entry of
`backend_servers` (in order), followed by one `server` block listening
on `port` with two `location` blocks (`/api/` and `/`), each proxying
to `http://backend` and forwarding the client headers.  Pure string
construction, transliterated from the Python f-strings. -/
def generateNginxConfig (backendServers : List String) (port : Nat) : String :=
  let upstreamBlock :=
    (backendServers.foldl
        (fun acc server => acc ++ "    server " ++ server ++ ";\n")
        "upstream backend \x7b\n")
      ++ "\x7d\n\n"
  let serverBlock :=
    "\nserver \x7b\n    listen " ++ toString port ++
    ";\n\n    location /api/ \x7b\n        proxy_pass http://backend;\n        proxy_set_header Host $host;\n        proxy_set_header X-Real-IP $remote_addr;\n        proxy_set_header X-Forwarded-For $proxy_add_x_forwarded_for;\n        proxy_set_header X-Forwarded-Proto $scheme;\n    \x7d\n\n    location / \x7b\n        proxy_pass http://backend;\n        proxy_set_header Host $host;\n        proxy_set_header X-Real-IP $remote_addr;\n        proxy_set_header X-Forwarded-For $proxy_add_x_forwarded_for;\n        proxy_set_header X-Forwarded-Proto $scheme;\n    \x7d\n\x7d\n"
  upstreamBlock ++ serverBlock

/-- `LoadBalancerServer.start` writes the generated configuration to
`<app_dir>/nginx.conf` (lines 249-252). -/
def lbWriteConfig (fs : List (String × String)) (appDir : String)
    (b : List String) (p : Nat) : List (String × String) :=
  setFile fs (appDir ++ "/nginx.conf") (generateNginxConfig b p)

/-- Overwriting a file with the same content a second time leaves the
file map unchanged. -/
theorem setFile_idem (fs : List (String × String)) (k v : String) :
    setFile (setFile fs k v) k v = setFile fs k v := by
  simp [setFile, List.filter_filter, bne_self_eq_false]

/-- C7: reverse-proxy configuration generation is a pure function of
the backend set and the port — for a non-empty backend set, generating
from equal inputs yields byte-identical output, and writing the
regenerated configuration a second time leaves the filesystem state
exactly as after the first write (idempotence). -/
theorem lb_config_regeneration (b b' : List String) (p p' : Nat)
    (fs : List (String × String)) (appDir : String)
    (hb : b ≠ []) (hbb : b = b') (hpp : p = p') :
    generateNginxConfig b p = generateNginxConfig b' p' ∧
    lbWriteConfig (lbWriteConfig fs appDir b p) appDir b p =
      lbWriteConfig fs appDir b p := by
  subst hbb; subst hpp
  exact ⟨rfl, setFile_idem ..⟩

/-- Witness for C7 at backend set ["10.0.0.1:8000"] and port 80. -/
theorem lb_config_regeneration_witness :
    generateNginxConfig ["10.0.0.1:8000"] 80 =
      generateNginxConfig ["10.0.0.1:8000"] 80 ∧
    lbWriteConfig (lbWriteConfig [] "ocr_0.1.0" ["10.0.0.1:8000"] 80)
        "ocr_0.1.0" ["10.0.0.1:8000"] 80 =
      lbWriteConfig [] "ocr_0.1.0" ["10.0.0.1:8000"] 80 :=
  lb_config_regeneration ["10.0.0.1:8000"] ["10.0.0.1:8000"] 80 80 []
    "ocr_0.1.0" (by decide) rfl rfl

/-- Split a character stream into its lines (separator '\n'); used to
state structural facts about the generated configuration text. -/
def splitLinesAux : List Char → List Char → List (List Char)
  | [], acc => [acc.reverse]
  | c :: rest, acc =>
    if c = '\n' then acc.reverse :: splitLinesAux rest []
    else splitLinesAux rest (c :: acc)

/-- The generated nginx configuration, as a list of lines. -/
def nginxLines (b : List String) (p : Nat) : List (List Char) :=
  splitLinesAux (generateNginxConfig b p).data []

/-- `pat` is a prefix of the line `s`. -/
def hasPrefixChars (pat s : List Char) : Bool := pat.isPrefixOf s

/-- C8: for backend set ["10.0.0.1:8000", "10.0.0.2:8000"] and port 80
the generated configuration has exactly one `upstream` block, whose
`server` lines are exactly the two backends in the set's order; exactly
one `server` block, listening on 80; and exactly two `location` blocks
(`/api/` and `/`), each proxying to the `backend` upstream. -/
theorem nginx_config_scenario4 :
    (nginxLines ["10.0.0.1:8000", "10.0.0.2:8000"] 80).filter
        (hasPrefixChars ("upstream " : String).data) =
      [("upstream backend \x7b" : String).data] ∧
    (nginxLines ["10.0.0.1:8000", "10.0.0.2:8000"] 80).filter
        (hasPrefixChars ("    server " : String).data) =
      [("    server 10.0.0.1:8000;" : String).data,
       ("    server 10.0.0.2:8000;" : String).data] ∧
    (nginxLines ["10.0.0.1:8000", "10.0.0.2:8000"] 80).count
        ("server \x7b" : String).data = 1 ∧
    (nginxLines ["10.0.0.1:8000", "10.0.0.2:8000"] 80).count
        ("    listen 80;" : String).data = 1 ∧
    (nginxLines ["10.0.0.1:8000", "10.0.0.2:8000"] 80).filter
        (hasPrefixChars ("    location " : String).data) =
      [("    location /api/ \x7b" : String).data,
       ("    location / \x7b" : String).data] ∧
    (nginxLines ["10.0.0.1:8000", "10.0.0.2:8000"] 80).count
        ("        proxy_pass http://backend;" : String).data = 2 := by
  decide

/-! ### `webapp_server.py` `WebAppServer` -/

/-- Python `str.lower()` as used by the role dispatch. -/
def pyLower (s : String) : String := ⟨s.data.map Char.toLower⟩

/-- Outcome of `requests.get(f"{inference_url}/status", timeout=5)` in
`WebAppServer._verify_inference_api`: a response with some status code,
or a raised `requests.RequestException` (e.g. connection refused /
timeout). -/
inductive ProbeResult where
  | status (code : Nat)
  | exn
  deriving DecidableEq, Repr

/-- `WebAppServer._verify_inference_api` (lines 27-43): `True` exactly
when the probe returned HTTP 200; any other status code or a transport
exception yields `False`. -/
def verifyInferenceApi : ProbeResult → Bool
  | .status code => code == 200
  | .exn => false

/-- The descriptor fields `WebAppServer.start` reads (`dict.get` with a
default at each use site, so each is optional). -/
structure WebAppConfig where
  web_server : Option String
  app_module : Option String
  app_file : Option String
  deriving DecidableEq, Repr

/-- Observable actions of `WebAppServer.start`: exporting an
environment variable, spawning a subprocess (`subprocess.Popen` with
the given argv), logging the unsupported-variant error, and writing a
file (present in the event alphabet so that "no file is written" is
expressible; this `start` never performs one). -/
inductive WebEvent where
  | setEnv (key value : String)
  | popen (cmd : List String)
  | logUnsupported (value : String)
  | writeFile (path content : String)
  deriving DecidableEq, Repr

namespace WebApp

/-- `webapp_server.py` `WebAppServer.start`, lines 86-132 (the part
after the three guards): export `API_URL`, dispatch on
`config.get("web_server", "flask").lower()` — `"flask"` launches
gunicorn, `"streamlit"` launches streamlit, anything else logs
"Unsupported web server type" and returns `-1`.  `popenPid` is the pid
the OS assigns (`none` models `Popen` raising, caught by the
surrounding `except`, which also returns `-1`). -/
def startLaunch (cfg : WebAppConfig) (appDir : String) (port : Nat)
    (inferenceUrl : String) (popenPid : Option Int) :
    Int × List WebEvent :=
  let webServer := cfg.web_server.getD "flask"
  let ev0 : List WebEvent := [.setEnv "API_URL" inferenceUrl]
  if pyLower webServer = "flask" then
    let appModule := cfg.app_module.getD "app:app"
    let cmd := ["gunicorn", "-b", "0.0.0.0:" ++ toString port, appModule]
    match popenPid with
    | some pid => (pid, ev0 ++ [.popen cmd])
    | none => (-1, ev0)
  else if pyLower webServer = "streamlit" then
    let appFile := cfg.app_file.getD "app.py"
    let cmd := ["streamlit", "run", appDir ++ "/" ++ appFile,
                "--server.port", toString port]
    match popenPid with
    | some pid => (pid, ev0 ++ [.popen cmd])
    | none => (-1, ev0)
  else
    (-1, ev0 ++ [.logUnsupported webServer])

/-- `webapp_server.py` `WebAppServer.start`, lines 75-132: if the app
directory is missing, or environment setup fails (env exports and pip
install are summarized by the boolean `envOk`), or the inference-API
probe does not return 200, return `-1` without doing anything further;
otherwise proceed to the launch dispatch. -/
def start (cfg : WebAppConfig) (appDir : String) (port : Nat)
    (inferenceUrl : String) (dirExists envOk : Bool)
    (probe : ProbeResult) (popenPid : Option Int) :
    Int × List WebEvent :=
  if !dirExists || !envOk || !(verifyInferenceApi probe) then
    (-1, [])
  else
    startLaunch cfg appDir port inferenceUrl popenPid

end WebApp

/-- C4: the inference-URL probe gates every spawn — if the probe does
not return HTTP 200, `WebAppServer.start` fails with `-1`, no process
is spawned and no file (in particular no pid marker) is written; and
conversely any trace containing a spawn event comes from a run in which
the probe returned 200. -/
theorem probe_failure_blocks_spawn (cfg : WebAppConfig) (appDir : String)
    (port : Nat) (url : String) (dirExists envOk : Bool)
    (probe : ProbeResult) (popenPid : Option Int) :
    (verifyInferenceApi probe = false →
      (WebApp.start cfg appDir port url dirExists envOk probe popenPid).1
          = -1 ∧
      (∀ c, WebEvent.popen c ∉
        (WebApp.start cfg appDir port url dirExists envOk probe popenPid).2) ∧
      (∀ q s, WebEvent.writeFile q s ∉
        (WebApp.start cfg appDir port url dirExists envOk probe popenPid).2)) ∧
    (∀ c, WebEvent.popen c ∈
        (WebApp.start cfg appDir port url dirExists envOk probe popenPid).2 →
      verifyInferenceApi probe = true) := by
  constructor
  · intro h
    simp [WebApp.start, h]
  · intro c hc
    by_contra hfalse
    rw [Bool.not_eq_true] at hfalse
    simp [WebApp.start, hfalse] at hc

/-- Witness for C4: a connection-refused probe (`ProbeResult.exn`) on
an otherwise healthy start makes `start` return `-1` with an empty
trace. -/
theorem probe_failure_blocks_spawn_witness :
    verifyInferenceApi .exn = false ∧
    (WebApp.start ⟨some "flask", some "app:app", none⟩ "ocr_0.1.0" 8080
        "http://localhost:8000" true true .exn (some 57)).1 = -1 := by
  refine ⟨rfl, ?_⟩
  exact ((probe_failure_blocks_spawn ⟨some "flask", some "app:app", none⟩
    "ocr_0.1.0" 8080 "http://localhost:8000" true true .exn
    (some 57)).1 rfl).1

/-- C9: omitting `web_server` is not an unsupported-variant failure —
the field defaults to "flask" and the gunicorn launch path is taken
(pid returned, trace is exactly the `API_URL` export followed by the
gunicorn spawn, and no unsupported-variant log occurs); a present value
triggers the unsupported-variant failure exactly when its lowercase
form is neither "flask" nor "streamlit". -/
theorem web_server_field_dispatch (am af : Option String)
    (appDir url : String) (port : Nat) (pid : Int) (v : String) :
    (WebApp.start ⟨none, am, af⟩ appDir port url true true (.status 200)
        (some pid)).1 = pid ∧
    (WebApp.start ⟨none, am, af⟩ appDir port url true true (.status 200)
        (some pid)).2 =
      [.setEnv "API_URL" url,
       .popen ["gunicorn", "-b", "0.0.0.0:" ++ toString port,
               am.getD "app:app"]] ∧
    (∀ w, WebEvent.logUnsupported w ∉
      (WebApp.start ⟨none, am, af⟩ appDir port url true true (.status 200)
          (some pid)).2) ∧
    ((∃ w, WebEvent.logUnsupported w ∈
        (WebApp.start ⟨some v, am, af⟩ appDir port url true true
            (.status 200) (some pid)).2) ↔
      (pyLower v ≠ "flask" ∧ pyLower v ≠ "streamlit")) := by
  have hflask : pyLower "flask" = "flask" := by decide
  refine ⟨?_, ?_, ?_, ?_⟩
  · simp [WebApp.start, WebApp.startLaunch, verifyInferenceApi, hflask]
  · simp [WebApp.start, WebApp.startLaunch, verifyInferenceApi, hflask]
  · intro w
    simp [WebApp.start, WebApp.startLaunch, verifyInferenceApi, hflask]
  · by_cases h1 : pyLower v = "flask"
    · simp [WebApp.start, WebApp.startLaunch, verifyInferenceApi, h1]
    · by_cases h2 : pyLower v = "streamlit"
      · simp [WebApp.start, WebApp.startLaunch, verifyInferenceApi, h1, h2]
      · simp [WebApp.start, WebApp.startLaunch, verifyInferenceApi, h1, h2]

/-- Witness for C9: with `web_server` omitted the gunicorn path is
taken and yields the spawned pid; with `web_server = "nginx"` the
unsupported-variant log occurs. -/
theorem web_server_field_dispatch_witness :
    (WebApp.start ⟨none, some "app:app", none⟩ "ocr_0.1.0" 8080
        "http://localhost:8000" true true (.status 200) (some 57)).1 = 57 ∧
    (pyLower "nginx" ≠ "flask" ∧ pyLower "nginx" ≠ "streamlit") ∧
    (∃ w, WebEvent.logUnsupported w ∈
      (WebApp.start ⟨some "nginx", some "app:app", none⟩ "ocr_0.1.0" 8080
          "http://localhost:8000" true true (.status 200) (some 57)).2) := by
  have h := web_server_field_dispatch (some "app:app") none "ocr_0.1.0"
    "http://localhost:8000" 8080 57 "nginx"
  exact ⟨h.1, by decide, h.2.2.2.mpr (by decide)⟩

end Spec2Proof
